import Mathlib

/-!
Verification development for the yatube REST API (`src/yatube_api/api/views.py`).

The repository's observable logic is three resource controllers:
`PostViewSet` (full CRUD over posts, ownership-gated writes),
`GroupViewSet` (read-only), and `CommentViewSet` (CRUD over the comments of
one parent post, resolved from the request path). We embed the store, the
rest_framework permission semantics the views declare, and each handler as a
pure function from a store and a caller to either an API error or an updated
store and a response. An error outcome carries no updated store: in this
embedding a failed request leaves the store untouched by construction.
-/

namespace Yatube

/-- HTTP methods the routed surface uses (list/retrieve via GET, create via
POST, update via PUT/PATCH, delete via DELETE). -/
inductive Method where
  | get
  | post
  | put
  | patch
  | delete
deriving DecidableEq

/-- rest_framework SAFE_METHODS membership (restricted to the methods we
model): only GET is a read. -/
def Method.isSafe : Method → Bool
  | .get => true
  | _ => false

/-- Caller identity as the views see `request.user`: `none` is an anonymous
request, `some uid` an authenticated user with primary key `uid`. -/
abbrev Caller := Option Nat

/-- The two rest_framework permission classes imported by `views.py`. -/
inductive Permission where
  | isAuthenticated
  | isAuthenticatedOrReadOnly
deriving DecidableEq

/-- `has_permission` of each class: `IsAuthenticated` demands an
authenticated caller for every method; `IsAuthenticatedOrReadOnly` lets
anonymous callers through on safe methods only. -/
def Permission.allows : Permission → Caller → Method → Bool
  | .isAuthenticated, c, _ => c.isSome
  | .isAuthenticatedOrReadOnly, c, m => c.isSome || m.isSafe

/-- `check_permissions`: every listed permission class must allow the
request; it runs before any handler logic. -/
def checkPermissions (ps : List Permission) (c : Caller) (m : Method) : Bool :=
  ps.all (fun p => p.allows c m)

/-- A stored Post row: primary key, author's user id, text, optional group. -/
structure Post where
  id : Nat
  author : Nat
  text : String
  group : Option Nat
deriving DecidableEq

/-- A stored Group row. -/
structure Group where
  id : Nat
  title : String
deriving DecidableEq

/-- A stored Comment row: primary key, author's user id, parent post's
primary key, text. -/
structure Comment where
  id : Nat
  author : Nat
  post : Nat
  text : String
deriving DecidableEq

/-- The relational store the viewsets operate on. -/
structure DB where
  posts : List Post
  groups : List Group
  comments : List Comment
deriving DecidableEq

/-- The client-error taxonomy surfaced by the API layer. -/
inductive ApiError where
  | notAuthenticated
  | permissionDenied (msg : String)
  | notFound
  | methodNotAllowed
deriving DecidableEq

/-- Request body for a post create/update. `author` models an author field a
client may illegally supply in the body; the views pass
`serializer.save(author=request.user)`, whose keyword argument overrides any
such field, so the handlers below never read it. -/
structure PostBody where
  text : String
  group : Option Nat
  author : Option Nat
deriving DecidableEq

/-- Request body for a comment create/update. `author` and `post` model
fields a client may illegally supply; `serializer.save(author=..., post=...)`
overrides both, so the handlers below never read them. -/
structure CommentBody where
  text : String
  author : Option Nat
  post : Option Nat
deriving DecidableEq

/-- Autoincrement primary key the store assigns to a newly created post. -/
def freshPostId (db : DB) : Nat :=
  (db.posts.map Post.id).foldr Nat.max 0 + 1

/-- Autoincrement primary key the store assigns to a newly created comment. -/
def freshCommentId (db : DB) : Nat :=
  (db.comments.map Comment.id).foldr Nat.max 0 + 1

/-- `PostViewSet.permission_classes = [IsAuthenticated]`. -/
def postPermissionClasses : List Permission := [.isAuthenticated]

/-- `CommentViewSet.permission_classes = [IsAuthenticatedOrReadOnly,
IsAuthenticated]`. -/
def commentPermissionClasses : List Permission :=
  [.isAuthenticatedOrReadOnly, .isAuthenticated]

/-- Modelled from the spec: `serializers.py` is not in the source tree. Per
the spec's invariants a Post's author can never be reassigned, so an update
writes only the writable fields (text, group) onto the stored row. -/
def applyPostBody (p : Post) (body : PostBody) : Post :=
  { p with text := body.text, group := body.group }

/-- Modelled from the spec: `serializers.py` is not in the source tree. Per
the spec's invariants a Comment's author can never be reassigned and its
parent post is immutable after creation, so an update writes only the text
onto the stored row. -/
def applyCommentBody (cm : Comment) (body : CommentBody) : Comment :=
  { cm with text := body.text }

/-- `GET /posts/`: permission check, then the full post collection
(`queryset = Post.objects.all()`, no ownership filter on reads). -/
def listPosts (db : DB) (c : Caller) : Except ApiError (DB × List Post) :=
  if checkPermissions postPermissionClasses c .get then
    .ok (db, db.posts)
  else
    .error .notAuthenticated

/-- `GET /posts/{pid}/`: permission check, then `get_object` on the full
queryset (404 when no post has primary key `pid`). -/
def retrievePost (db : DB) (c : Caller) (pid : Nat) : Except ApiError (DB × Post) :=
  if checkPermissions postPermissionClasses c .get then
    match db.posts.find? (fun q => q.id == pid) with
    | none => .error .notFound
    | some p => .ok (db, p)
  else
    .error .notAuthenticated

/-- `POST /posts/`: permission check, then `perform_create`, which saves
with `author=self.request.user`, overriding any author in the body. -/
def createPost (db : DB) (c : Caller) (body : PostBody) : Except ApiError (DB × Post) :=
  if checkPermissions postPermissionClasses c .post then
    match c with
    | none => .error .notAuthenticated
    | some uid =>
      let p : Post :=
        { id := freshPostId db, author := uid, text := body.text, group := body.group }
      .ok ({ db with posts := db.posts ++ [p] }, p)
  else
    .error .notAuthenticated

/-- `PUT/PATCH /posts/{pid}/`: permission check, `get_object` (404 when
missing), then `perform_update`: raise `PermissionDenied` with the message
from `views.py` when the stored author is not the caller, otherwise save the
writable fields. -/
def updatePost (db : DB) (c : Caller) (pid : Nat) (body : PostBody) :
    Except ApiError (DB × Post) :=
  if checkPermissions postPermissionClasses c .patch then
    match c with
    | none => .error .notAuthenticated
    | some uid =>
      match db.posts.find? (fun q => q.id == pid) with
      | none => .error .notFound
      | some p =>
        if p.author ≠ uid then
          .error (.permissionDenied "Изменение чужого контента запрещено!")
        else
          .ok ({ db with
                  posts := db.posts.map
                    (fun q => if q.id == pid then applyPostBody q body else q) },
               applyPostBody p body)
  else
    .error .notAuthenticated

/-- `DELETE /posts/{pid}/`: permission check, `get_object` (404 when
missing), then `perform_destroy`: raise `PermissionDenied` with the message
from `views.py` when the stored author is not the caller, otherwise delete
the row. -/
def destroyPost (db : DB) (c : Caller) (pid : Nat) : Except ApiError (DB × Unit) :=
  if checkPermissions postPermissionClasses c .delete then
    match c with
    | none => .error .notAuthenticated
    | some uid =>
      match db.posts.find? (fun q => q.id == pid) with
      | none => .error .notFound
      | some p =>
        if p.author ≠ uid then
          .error (.permissionDenied "Удаление чужого контента запрещено!")
        else
          .ok ({ db with posts := db.posts.filter (fun q => q.id != pid) }, ())
  else
    .error .notAuthenticated

/-- `GroupViewSet` is a `ReadOnlyModelViewSet`: the router binds GET to
list (`gid = none`) and retrieve (`gid = some g`); every other method on
`/groups/...` has no bound action and is rejected with MethodNotAllowed. -/
def groupRequest (db : DB) (m : Method) (gid : Option Nat) :
    Except ApiError (DB × List Group) :=
  match m, gid with
  | .get, none => .ok (db, db.groups)
  | .get, some g =>
    match db.groups.find? (fun gr => gr.id == g) with
    | none => .error .notFound
    | some gr => .ok (db, [gr])
  | _, _ => .error .methodNotAllowed

/-- `CommentViewSet.get_post`: `get_object_or_404(Post, id=post_id)`. -/
def getPost (db : DB) (pid : Nat) : Option Post :=
  db.posts.find? (fun q => q.id == pid)

/-- `post.comments.all()`: the comments whose parent is the resolved post. -/
def postComments (db : DB) (pid : Nat) : List Comment :=
  db.comments.filter (fun cm => cm.post == pid)

/-- `GET /posts/{pid}/comments/`: permission check, then `get_queryset`,
which resolves the parent post (404 when missing) and returns only its
comments. -/
def listComments (db : DB) (c : Caller) (pid : Nat) :
    Except ApiError (DB × List Comment) :=
  if checkPermissions commentPermissionClasses c .get then
    match getPost db pid with
    | none => .error .notFound
    | some _ => .ok (db, postComments db pid)
  else
    .error .notAuthenticated

/-- `GET /posts/{pid}/comments/{cid}/`: permission check, then `get_object`
over the parent-scoped queryset: resolve the post (404 when missing), then
look `cid` up among that post's comments only (404 when absent there). -/
def retrieveComment (db : DB) (c : Caller) (pid cid : Nat) :
    Except ApiError (DB × Comment) :=
  if checkPermissions commentPermissionClasses c .get then
    match getPost db pid with
    | none => .error .notFound
    | some _ =>
      match (postComments db pid).find? (fun cm => cm.id == cid) with
      | none => .error .notFound
      | some cm => .ok (db, cm)
  else
    .error .notAuthenticated

/-- `POST /posts/{pid}/comments/`: permission check, then `perform_create`:
resolve the post (404 when missing) and save with `author=request.user,
post=post`, overriding any author or parent reference in the body. -/
def createComment (db : DB) (c : Caller) (pid : Nat) (body : CommentBody) :
    Except ApiError (DB × Comment) :=
  if checkPermissions commentPermissionClasses c .post then
    match c with
    | none => .error .notAuthenticated
    | some uid =>
      match getPost db pid with
      | none => .error .notFound
      | some p =>
        let cm : Comment :=
          { id := freshCommentId db, author := uid, post := p.id, text := body.text }
        .ok ({ db with comments := db.comments ++ [cm] }, cm)
  else
    .error .notAuthenticated

/-- `PUT/PATCH /posts/{pid}/comments/{cid}/`: permission check, parent-scoped
`get_object` (404 when the post is missing or the comment is not among its
comments), then `perform_update`: raise `PermissionDenied` with the message
from `views.py` when the stored author is not the caller, otherwise save the
writable fields. -/
def updateComment (db : DB) (c : Caller) (pid cid : Nat) (body : CommentBody) :
    Except ApiError (DB × Comment) :=
  if checkPermissions commentPermissionClasses c .patch then
    match c with
    | none => .error .notAuthenticated
    | some uid =>
      match getPost db pid with
      | none => .error .notFound
      | some _ =>
        match (postComments db pid).find? (fun cm => cm.id == cid) with
        | none => .error .notFound
        | some cm =>
          if cm.author ≠ uid then
            .error (.permissionDenied "Изменение чужого комментария запрещено!")
          else
            .ok ({ db with
                    comments := db.comments.map
                      (fun q => if q.id == cid then applyCommentBody q body else q) },
                 applyCommentBody cm body)
  else
    .error .notAuthenticated

/-- `DELETE /posts/{pid}/comments/{cid}/`: permission check, parent-scoped
`get_object` (404 when the post is missing or the comment is not among its
comments), then `perform_destroy`: raise `PermissionDenied` with the message
from `views.py` when the stored author is not the caller, otherwise delete
the row. -/
def destroyComment (db : DB) (c : Caller) (pid cid : Nat) :
    Except ApiError (DB × Unit) :=
  if checkPermissions commentPermissionClasses c .delete then
    match c with
    | none => .error .notAuthenticated
    | some uid =>
      match getPost db pid with
      | none => .error .notFound
      | some _ =>
        match (postComments db pid).find? (fun cm => cm.id == cid) with
        | none => .error .notFound
        | some cm =>
          if cm.author ≠ uid then
            .error (.permissionDenied "Удаление чужого комментария запрещено!")
          else
            .ok ({ db with comments := db.comments.filter (fun q => q.id != cid) }, ())
  else
    .error .notAuthenticated

/-- The routed request surface of the API. -/
inductive Req where
  | postList
  | postRetrieve (pid : Nat)
  | postCreate (body : PostBody)
  | postUpdate (pid : Nat) (body : PostBody)
  | postDestroy (pid : Nat)
  | groupReq (m : Method) (gid : Option Nat)
  | commentList (pid : Nat)
  | commentRetrieve (pid cid : Nat)
  | commentCreate (pid : Nat) (body : CommentBody)
  | commentUpdate (pid cid : Nat) (body : CommentBody)
  | commentDestroy (pid cid : Nat)
deriving DecidableEq

/-- Response payloads. -/
inductive Resp where
  | posts (l : List Post)
  | onePost (p : Post)
  | groups (l : List Group)
  | comments (l : List Comment)
  | oneComment (cm : Comment)
  | deleted
deriving DecidableEq

/-- Whether a request targets the group resource. -/
def Req.isGroup : Req → Bool
  | .groupReq _ _ => true
  | _ => false

/-- The parent-post identifier a comment-resource request carries in its
path, `none` for post and group requests. -/
def Req.commentPostId : Req → Option Nat
  | .commentList pid => some pid
  | .commentRetrieve pid _ => some pid
  | .commentCreate pid _ => some pid
  | .commentUpdate pid _ _ => some pid
  | .commentDestroy pid _ => some pid
  | _ => none

/-- Top-level dispatch of a request to its viewset handler. -/
def handle (db : DB) (c : Caller) : Req → Except ApiError (DB × Resp)
  | .postList => (listPosts db c).map (fun x => (x.1, .posts x.2))
  | .postRetrieve pid => (retrievePost db c pid).map (fun x => (x.1, .onePost x.2))
  | .postCreate body => (createPost db c body).map (fun x => (x.1, .onePost x.2))
  | .postUpdate pid body => (updatePost db c pid body).map (fun x => (x.1, .onePost x.2))
  | .postDestroy pid => (destroyPost db c pid).map (fun x => (x.1, Resp.deleted))
  | .groupReq m gid => (groupRequest db m gid).map (fun x => (x.1, .groups x.2))
  | .commentList pid => (listComments db c pid).map (fun x => (x.1, .comments x.2))
  | .commentRetrieve pid cid =>
    (retrieveComment db c pid cid).map (fun x => (x.1, .oneComment x.2))
  | .commentCreate pid body =>
    (createComment db c pid body).map (fun x => (x.1, .oneComment x.2))
  | .commentUpdate pid cid body =>
    (updateComment db c pid cid body).map (fun x => (x.1, .oneComment x.2))
  | .commentDestroy pid cid =>
    (destroyComment db c pid cid).map (fun x => (x.1, Resp.deleted))

/-- A concrete store used by witnesses and counterexamples: two posts by
users 1 and 2, one comment on each post by its own post's author, and one
group. -/
def db0 : DB :=
  { posts := [⟨1, 1, "hello", none⟩, ⟨2, 2, "world", some 7⟩]
    groups := [⟨7, "g"⟩]
    comments := [⟨1, 1, 1, "nice"⟩, ⟨2, 2, 2, "wow"⟩] }

/-- A successful post list leaves the store unchanged. -/
theorem listPosts_ok (db : DB) (c : Caller) (db' : DB) (l : List Post)
    (h : listPosts db c = .ok (db', l)) : db' = db := by
  unfold listPosts at h
  split at h <;> simp_all

/-- A successful post retrieve leaves the store unchanged. -/
theorem retrievePost_ok (db : DB) (c : Caller) (pid : Nat) (db' : DB) (p : Post)
    (h : retrievePost db c pid = .ok (db', p)) : db' = db := by
  unfold retrievePost at h
  split at h
  · split at h <;> simp_all
  · simp_all

/-- A successful post create appends exactly the returned row. -/
theorem createPost_state (db : DB) (c : Caller) (body : PostBody) (db' : DB)
    (p : Post) (h : createPost db c body = .ok (db', p)) :
    db' = { db with posts := db.posts ++ [p] } := by
  unfold createPost at h
  split at h
  · split at h
    · simp_all
    · simp only [Except.ok.injEq, Prod.mk.injEq] at h
      obtain ⟨h1, h2⟩ := h
      subst h2
      exact h1.symm
  · simp_all

/-- The row a post create returns: fresh id, the caller as author, the
body's writable fields. -/
theorem createPost_row (db : DB) (uid : Nat) (body : PostBody) (db' : DB)
    (p : Post) (h : createPost db (some uid) body = .ok (db', p)) :
    p = { id := freshPostId db, author := uid, text := body.text, group := body.group } := by
  unfold createPost at h
  split at h <;> simp_all

/-- A successful post update rewrites only the rows with the targeted id,
via the writable-field application. -/
theorem updatePost_state (db : DB) (c : Caller) (pid : Nat) (body : PostBody)
    (db' : DB) (r : Post) (h : updatePost db c pid body = .ok (db', r)) :
    db' = { db with
      posts := db.posts.map (fun q => if q.id == pid then applyPostBody q body else q) } := by
  unfold updatePost at h
  split at h
  · split at h
    · simp_all
    · split at h
      · simp_all
      · split at h <;> simp_all
  · simp_all

/-- A successful post delete filters out the targeted id and touches
nothing else. -/
theorem destroyPost_state (db : DB) (c : Caller) (pid : Nat) (db' : DB)
    (u : Unit) (h : destroyPost db c pid = .ok (db', u)) :
    db' = { db with posts := db.posts.filter (fun q => q.id != pid) } := by
  unfold destroyPost at h
  split at h
  · split at h
    · simp_all
    · split at h
      · simp_all
      · split at h <;> simp_all
  · simp_all

/-- A successful group request leaves the store unchanged. -/
theorem groupRequest_ok (db : DB) (m : Method) (gid : Option Nat) (db' : DB)
    (l : List Group) (h : groupRequest db m gid = .ok (db', l)) : db' = db := by
  unfold groupRequest at h
  split at h
  · simp_all
  · split at h <;> simp_all
  · simp_all

/-- A successful comment list leaves the store unchanged and returns the
parent-scoped comments. -/
theorem listComments_ok (db : DB) (c : Caller) (pid : Nat) (db' : DB)
    (l : List Comment) (h : listComments db c pid = .ok (db', l)) :
    db' = db ∧ l = postComments db pid := by
  unfold listComments at h
  split at h
  · split at h
    · simp_all
    · simp only [Except.ok.injEq, Prod.mk.injEq] at h
      exact ⟨h.1.symm, h.2.symm⟩
  · simp_all

/-- A successful comment retrieve leaves the store unchanged and returns a
row of the parent-scoped comments. -/
theorem retrieveComment_ok (db : DB) (c : Caller) (pid cid : Nat) (db' : DB)
    (cm : Comment) (h : retrieveComment db c pid cid = .ok (db', cm)) :
    db' = db ∧ cm ∈ postComments db pid := by
  unfold retrieveComment at h
  split at h
  · split at h
    · simp_all
    · split at h
      · simp_all
      · have := List.mem_of_find?_eq_some (by assumption)
        simp_all
  · simp_all

/-- A successful comment create appends exactly the returned row. -/
theorem createComment_state (db : DB) (c : Caller) (pid : Nat)
    (body : CommentBody) (db' : DB) (cm : Comment)
    (h : createComment db c pid body = .ok (db', cm)) :
    db' = { db with comments := db.comments ++ [cm] } := by
  unfold createComment at h
  split at h
  · split at h
    · simp_all
    · split at h
      · simp_all
      · simp only [Except.ok.injEq, Prod.mk.injEq] at h
        obtain ⟨h1, h2⟩ := h
        subst h2
        exact h1.symm
  · simp_all

/-- The row a comment create returns: fresh id, the caller as author, the
resolved post as parent, the body's text. -/
theorem createComment_row (db : DB) (uid pid : Nat) (body : CommentBody)
    (db' : DB) (cm : Comment)
    (h : createComment db (some uid) pid body = .ok (db', cm)) :
    ∃ p, getPost db pid = some p ∧
      cm = { id := freshCommentId db, author := uid, post := p.id, text := body.text } := by
  unfold createComment at h
  split at h
  · split at h
    · simp_all
    · split at h
      · simp_all
      · rename_i p heq
        refine ⟨p, heq, ?_⟩
        simp_all
  · simp_all

/-- A successful comment update rewrites only the rows with the targeted id,
via the writable-field application. -/
theorem updateComment_state (db : DB) (c : Caller) (pid cid : Nat)
    (body : CommentBody) (db' : DB) (r : Comment)
    (h : updateComment db c pid cid body = .ok (db', r)) :
    db' = { db with
      comments := db.comments.map (fun q => if q.id == cid then applyCommentBody q body else q) } := by
  unfold updateComment at h
  split at h
  · split at h
    · simp_all
    · split at h
      · simp_all
      · split at h
        · simp_all
        · split at h <;> simp_all
  · simp_all

/-- A successful comment delete filters out the targeted id and touches
nothing else. -/
theorem destroyComment_state (db : DB) (c : Caller) (pid cid : Nat) (db' : DB)
    (u : Unit) (h : destroyComment db c pid cid = .ok (db', u)) :
    db' = { db with comments := db.comments.filter (fun q => q.id != cid) } := by
  unfold destroyComment at h
  split at h
  · split at h
    · simp_all
    · split at h
      · simp_all
      · split at h
        · simp_all
        · split at h <;> simp_all
  · simp_all

/-- The post `get_object_or_404` resolves carries the requested id. -/
theorem getPost_id (db : DB) (pid : Nat) (p : Post) (h : getPost db pid = some p) :
    p.id = pid := by
  unfold getPost at h
  simpa using List.find?_some h

/-- Claim C1: for every post and every authenticated caller other than its
author, an update or delete request fails with PermissionDenied; the error
outcome carries no updated store, so the post is left unchanged. -/
theorem C1_nonauthor_post_write_denied (db : DB) (uid pid : Nat)
    (body : PostBody) (p : Post)
    (hp : db.posts.find? (fun q => q.id == pid) = some p)
    (hne : p.author ≠ uid) :
    updatePost db (some uid) pid body =
      .error (.permissionDenied "Изменение чужого контента запрещено!") ∧
    destroyPost db (some uid) pid =
      .error (.permissionDenied "Удаление чужого контента запрещено!") := by
  constructor
  · unfold updatePost
    simp [checkPermissions, postPermissionClasses, Permission.allows, hp, hne]
  · unfold destroyPost
    simp [checkPermissions, postPermissionClasses, Permission.allows, hp, hne]

/-- Witness for C1 on the concrete store: user 2 can neither update nor
delete user 1's post. -/
theorem C1_witness :
    updatePost db0 (some 2) 1 ⟨"x", none, none⟩ =
      .error (.permissionDenied "Изменение чужого контента запрещено!") ∧
    destroyPost db0 (some 2) 1 =
      .error (.permissionDenied "Удаление чужого контента запрещено!") :=
  C1_nonauthor_post_write_denied db0 2 1 ⟨"x", none, none⟩ ⟨1, 1, "hello", none⟩
    rfl (by decide)

/-- Claim C2: listing or retrieving comments scoped to a post returns only
comments whose parent is that post. -/
theorem C2_comments_scoped_to_post :
    (∀ (db : DB) (c : Caller) (pid : Nat) (db' : DB) (l : List Comment),
      listComments db c pid = .ok (db', l) → ∀ cm ∈ l, cm.post = pid) ∧
    (∀ (db : DB) (c : Caller) (pid cid : Nat) (db' : DB) (cm : Comment),
      retrieveComment db c pid cid = .ok (db', cm) → cm.post = pid) := by
  constructor
  · intro db c pid db' l h cm hm
    obtain ⟨-, hl⟩ := listComments_ok db c pid db' l h
    subst hl
    unfold postComments at hm
    simpa using (List.mem_filter.mp hm).2
  · intro db c pid cid db' cm h
    obtain ⟨-, hm⟩ := retrieveComment_ok db c pid cid db' cm h
    unfold postComments at hm
    simpa using (List.mem_filter.mp hm).2

/-- Witness for C2 on the concrete store: the listed comment of post 1 and
the retrieved comment of post 2 carry those parents. -/
theorem C2_witness :
    Comment.post ⟨1, 1, 1, "nice"⟩ = 1 ∧ Comment.post ⟨2, 2, 2, "wow"⟩ = 2 :=
  ⟨C2_comments_scoped_to_post.1 db0 (some 1) 1 db0 [⟨1, 1, 1, "nice"⟩] rfl
      ⟨1, 1, 1, "nice"⟩ (by simp),
    C2_comments_scoped_to_post.2 db0 (some 2) 2 2 db0 ⟨2, 2, 2, "wow"⟩ rfl⟩

/-- Claim C3: a comment created through the nested route gets the path's
post as parent, whatever parent reference the body carries. -/
theorem C3_created_comment_parent_is_path_post (db : DB) (uid pid : Nat)
    (body : CommentBody) (db' : DB) (cm : Comment)
    (h : createComment db (some uid) pid body = .ok (db', cm)) :
    cm.post = pid := by
  obtain ⟨p, hp, hcm⟩ := createComment_row db uid pid body db' cm h
  subst hcm
  exact getPost_id db pid p hp

/-- Witness for C3 on the concrete store: a comment created under post 1
with a body claiming parent 99 still gets parent 1. -/
theorem C3_witness : Comment.post ⟨3, 5, 1, "hey"⟩ = 1 :=
  C3_created_comment_parent_is_path_post db0 5 1 ⟨"hey", some 9, some 99⟩
    { db0 with comments := db0.comments ++ [⟨3, 5, 1, "hey"⟩] } ⟨3, 5, 1, "hey"⟩ rfl

/-- Claim C4: a created post or comment has the requesting user as author,
whatever author field the body carries. -/
theorem C4_created_author_is_requester :
    (∀ (db : DB) (uid : Nat) (body : PostBody) (db' : DB) (p : Post),
      createPost db (some uid) body = .ok (db', p) → p.author = uid) ∧
    (∀ (db : DB) (uid pid : Nat) (body : CommentBody) (db' : DB) (cm : Comment),
      createComment db (some uid) pid body = .ok (db', cm) → cm.author = uid) := by
  constructor
  · intro db uid body db' p h
    have hrow := createPost_row db uid body db' p h
    subst hrow
    rfl
  · intro db uid pid body db' cm h
    obtain ⟨p, hp, hcm⟩ := createComment_row db uid pid body db' cm h
    subst hcm
    rfl

/-- Witness for C4 on the concrete store: user 3's created post and user 5's
created comment carry them as author despite bogus body author fields. -/
theorem C4_witness :
    Post.author ⟨3, 3, "hi", none⟩ = 3 ∧ Comment.author ⟨3, 5, 2, "yo"⟩ = 5 :=
  ⟨C4_created_author_is_requester.1 db0 3 ⟨"hi", none, some 9⟩
      { db0 with posts := db0.posts ++ [⟨3, 3, "hi", none⟩] } ⟨3, 3, "hi", none⟩ rfl,
    C4_created_author_is_requester.2 db0 5 2 ⟨"yo", some 9, some 99⟩
      { db0 with comments := db0.comments ++ [⟨3, 5, 2, "yo"⟩] } ⟨3, 5, 2, "yo"⟩ rfl⟩

/-- Claim C6: for every comment and every authenticated caller other than
its author, an update or delete request fails with PermissionDenied carrying
the explicit (non-empty) messages of `views.py`; the error outcome carries
no updated store, so the comment is left unchanged. -/
theorem C6_nonauthor_comment_write_denied (db : DB) (uid pid cid : Nat)
    (body : CommentBody) (p : Post) (cm : Comment)
    (hp : getPost db pid = some p)
    (hcm : (postComments db pid).find? (fun q => q.id == cid) = some cm)
    (hne : cm.author ≠ uid) :
    updateComment db (some uid) pid cid body =
      .error (.permissionDenied "Изменение чужого комментария запрещено!") ∧
    destroyComment db (some uid) pid cid =
      .error (.permissionDenied "Удаление чужого комментария запрещено!") ∧
    "Изменение чужого комментария запрещено!" ≠ "" ∧
    "Удаление чужого комментария запрещено!" ≠ "" := by
  refine ⟨?_, ?_, by decide, by decide⟩
  · unfold updateComment
    simp [checkPermissions, commentPermissionClasses, Permission.allows, hp, hcm, hne]
  · unfold destroyComment
    simp [checkPermissions, commentPermissionClasses, Permission.allows, hp, hcm, hne]

/-- Witness for C6 on the concrete store: user 2 can neither update nor
delete user 1's comment on post 1. -/
theorem C6_witness :
    updateComment db0 (some 2) 1 1 ⟨"x", none, none⟩ =
      .error (.permissionDenied "Изменение чужого комментария запрещено!") ∧
    destroyComment db0 (some 2) 1 1 =
      .error (.permissionDenied "Удаление чужого комментария запрещено!") ∧
    "Изменение чужого комментария запрещено!" ≠ "" ∧
    "Удаление чужого комментария запрещено!" ≠ "" :=
  C6_nonauthor_comment_write_denied db0 2 1 1 ⟨"x", none, none⟩
    ⟨1, 1, "hello", none⟩ ⟨1, 1, 1, "nice"⟩ rfl rfl (by decide)

/-- With globally unique comment ids, a comment stored under another post is
never found in the parent-scoped queryset. -/
theorem find_scoped_none (db : DB) (pid cid : Nat) (cm : Comment)
    (hnodup : (db.comments.map Comment.id).Nodup)
    (hcm : cm ∈ db.comments) (hid : cm.id = cid) (hne : cm.post ≠ pid) :
    (postComments db pid).find? (fun q => q.id == cid) = none := by
  cases hfind : (postComments db pid).find? (fun q => q.id == cid) with
  | none => rfl
  | some x =>
    exfalso
    have hpx := List.find?_some hfind
    have hmx := List.mem_of_find?_eq_some hfind
    unfold postComments at hmx
    have hmem := (List.mem_filter.mp hmx).1
    have hpost : x.post = pid := by simpa using (List.mem_filter.mp hmx).2
    have hxid : x.id = cid := by simpa using hpx
    have hxcm : x = cm :=
      List.inj_on_of_nodup_map hnodup hmem hcm (by rw [hxid, hid])
    exact hne (hxcm ▸ hpost)

/-- Counterexample to C10 as stated: the claim quantifies over every
request, but an anonymous retrieve of comment 2 (which lives under post 2)
through post 1's route is rejected by the permission layer with
NotAuthenticated, not NotFound. -/
theorem C10_counterexample :
    getPost db0 1 = some ⟨1, 1, "hello", none⟩ ∧
    (⟨2, 2, 2, "wow"⟩ : Comment) ∈ db0.comments ∧
    (2 : Nat) ≠ 1 ∧
    handle db0 none (Req.commentRetrieve 1 2) = .error .notAuthenticated ∧
    ApiError.notAuthenticated ≠ ApiError.notFound := by
  refine ⟨rfl, by simp [db0], by decide, rfl, by decide⟩

/-- Claim C10 as amended: for every *authenticated* retrieve, update or
delete addressed to a comment id that exists only under a different post,
the comment is looked up only within the resolved post's comments, so the
request fails with NotFound — not PermissionDenied, whoever the caller is,
so no authorship check has taken place — and the error outcome carries no
updated store. -/
theorem C10_cross_post_comment_not_found (db : DB) (uid pid cid : Nat)
    (body : CommentBody) (p : Post) (cm : Comment)
    (hnodup : (db.comments.map Comment.id).Nodup)
    (hp : getPost db pid = some p)
    (hcm : cm ∈ db.comments) (hid : cm.id = cid) (hne : cm.post ≠ pid) :
    retrieveComment db (some uid) pid cid = .error .notFound ∧
    updateComment db (some uid) pid cid body = .error .notFound ∧
    destroyComment db (some uid) pid cid = .error .notFound := by
  have hfind := find_scoped_none db pid cid cm hnodup hcm hid hne
  refine ⟨?_, ?_, ?_⟩
  · unfold retrieveComment
    simp [checkPermissions, commentPermissionClasses, Permission.allows, hp, hfind]
  · unfold updateComment
    simp [checkPermissions, commentPermissionClasses, Permission.allows, hp, hfind]
  · unfold destroyComment
    simp [checkPermissions, commentPermissionClasses, Permission.allows, hp, hfind]

/-- Witness for the amended C10 on the concrete store: even comment 2's own
author gets NotFound addressing it through post 1. -/
theorem C10_witness :
    retrieveComment db0 (some 2) 1 2 = .error .notFound ∧
    updateComment db0 (some 2) 1 2 ⟨"x", none, none⟩ = .error .notFound ∧
    destroyComment db0 (some 2) 1 2 = .error .notFound :=
  C10_cross_post_comment_not_found db0 2 1 2 ⟨"x", none, none⟩
    ⟨1, 1, "hello", none⟩ ⟨2, 2, 2, "wow"⟩ (by decide) rfl (by simp [db0])
    rfl (by decide)

/-- Counterexample to C5 as stated: the claim says unauthenticated reads on
Posts and Comments succeed, but both viewsets list `IsAuthenticated`, so an
anonymous list of posts or of a post's comments is rejected with
NotAuthenticated (`views.py` even documents the post viewset as available
to authorized users only). -/
theorem C5_counterexample :
    listPosts db0 none = .error .notAuthenticated ∧
    listComments db0 none 1 = .error .notAuthenticated ∧
    (listPosts db0 none).isOk = false ∧
    (listComments db0 none 1).isOk = false :=
  ⟨rfl, rfl, rfl, rfl⟩

/-- Claim C5 as amended: for every unauthenticated caller, every operation
on Posts and Comments — read and write alike — is rejected with a
NotAuthenticated client error by the permission layer, before reaching
handler logic; the error outcome carries no updated store. -/
theorem C5_unauthenticated_rejected (db : DB) (req : Req)
    (h : req.isGroup = false) :
    handle db none req = .error .notAuthenticated := by
  cases req <;>
    simp_all [handle, Req.isGroup, listPosts, retrievePost, createPost,
      updatePost, destroyPost, listComments, retrieveComment, createComment,
      updateComment, destroyComment, checkPermissions, postPermissionClasses,
      commentPermissionClasses, Permission.allows, Method.isSafe, Except.map]

/-- Witness for the amended C5 on the concrete store: an anonymous post
list is rejected. -/
theorem C5_witness : handle db0 none Req.postList = .error .notAuthenticated :=
  C5_unauthenticated_rejected db0 Req.postList rfl

/-- Counterexample to C7 as stated: the claim quantifies over every
comment-resource request, but an anonymous one naming a missing post is
rejected by the permission layer with NotAuthenticated, not NotFound. -/
theorem C7_counterexample :
    getPost db0 99 = none ∧
    handle db0 none (Req.commentList 99) = .error .notAuthenticated ∧
    ApiError.notAuthenticated ≠ ApiError.notFound :=
  ⟨rfl, rfl, by decide⟩

/-- Claim C7 as amended: for every comment-resource request from an
*authenticated* caller whose path names a post id that matches no stored
post, the request fails with NotFound before any comment logic runs; the
error outcome carries no updated store, so there is no side effect. -/
theorem C7_missing_post_not_found (db : DB) (uid pid : Nat) (req : Req)
    (hreq : req.commentPostId = some pid)
    (hmiss : getPost db pid = none) :
    handle db (some uid) req = .error .notFound := by
  cases req <;>
    simp_all [handle, Req.commentPostId, listComments, retrieveComment,
      createComment, updateComment, destroyComment, checkPermissions,
      commentPermissionClasses, Permission.allows, Except.map]

/-- Witness for the amended C7 on the concrete store: an authenticated
comment list under missing post 99 yields NotFound. -/
theorem C7_witness : handle db0 (some 1) (Req.commentList 99) = .error .notFound :=
  C7_missing_post_not_found db0 1 99 (Req.commentList 99) rfl rfl

/-- Unpacking a successful mapped `Except`. -/
theorem map_eq_ok {α β ε : Type} (f : α → β) (e : Except ε α) (b : β)
    (h : e.map f = .ok b) : ∃ a, e = .ok a ∧ f a = b := by
  cases e with
  | error err => simp [Except.map] at h
  | ok a => exact ⟨a, rfl, by simpa [Except.map] using h⟩

/-- No successful request changes the stored groups: posts and comments
handlers rewrite only their own table, and the group handler never writes. -/
theorem handle_ok_groups (db : DB) (c : Caller) (req : Req) (db' : DB)
    (r : Resp) (h : handle db c req = .ok (db', r)) :
    db'.groups = db.groups := by
  cases req with
  | postList =>
    obtain ⟨a, ha, hf⟩ := map_eq_ok _ _ _ h
    have h1 : a.1 = db' := congrArg Prod.fst hf
    rw [← h1, listPosts_ok db c a.1 a.2 ha]
  | postRetrieve pid =>
    obtain ⟨a, ha, hf⟩ := map_eq_ok _ _ _ h
    have h1 : a.1 = db' := congrArg Prod.fst hf
    rw [← h1, retrievePost_ok db c pid a.1 a.2 ha]
  | postCreate body =>
    obtain ⟨a, ha, hf⟩ := map_eq_ok _ _ _ h
    have h1 : a.1 = db' := congrArg Prod.fst hf
    rw [← h1, createPost_state db c body a.1 a.2 ha]
  | postUpdate pid body =>
    obtain ⟨a, ha, hf⟩ := map_eq_ok _ _ _ h
    have h1 : a.1 = db' := congrArg Prod.fst hf
    rw [← h1, updatePost_state db c pid body a.1 a.2 ha]
  | postDestroy pid =>
    obtain ⟨a, ha, hf⟩ := map_eq_ok _ _ _ h
    have h1 : a.1 = db' := congrArg Prod.fst hf
    rw [← h1, destroyPost_state db c pid a.1 a.2 ha]
  | groupReq m gid =>
    obtain ⟨a, ha, hf⟩ := map_eq_ok _ _ _ h
    have h1 : a.1 = db' := congrArg Prod.fst hf
    rw [← h1, groupRequest_ok db m gid a.1 a.2 ha]
  | commentList pid =>
    obtain ⟨a, ha, hf⟩ := map_eq_ok _ _ _ h
    have h1 : a.1 = db' := congrArg Prod.fst hf
    rw [← h1, (listComments_ok db c pid a.1 a.2 ha).1]
  | commentRetrieve pid cid =>
    obtain ⟨a, ha, hf⟩ := map_eq_ok _ _ _ h
    have h1 : a.1 = db' := congrArg Prod.fst hf
    rw [← h1, (retrieveComment_ok db c pid cid a.1 a.2 ha).1]
  | commentCreate pid body =>
    obtain ⟨a, ha, hf⟩ := map_eq_ok _ _ _ h
    have h1 : a.1 = db' := congrArg Prod.fst hf
    rw [← h1, createComment_state db c pid body a.1 a.2 ha]
  | commentUpdate pid cid body =>
    obtain ⟨a, ha, hf⟩ := map_eq_ok _ _ _ h
    have h1 : a.1 = db' := congrArg Prod.fst hf
    rw [← h1, updateComment_state db c pid cid body a.1 a.2 ha]
  | commentDestroy pid cid =>
    obtain ⟨a, ha, hf⟩ := map_eq_ok _ _ _ h
    have h1 : a.1 = db' := congrArg Prod.fst hf
    rw [← h1, destroyComment_state db c pid cid a.1 a.2 ha]

/-- Claim C8: the group resource supports only list and retrieve — every
create, update or delete method on the group routes is rejected with
MethodNotAllowed — and no successful request of any kind creates, mutates
or deletes a stored group. -/
theorem C8_group_read_only :
    (∀ (db : DB) (c : Caller) (m : Method) (gid : Option Nat),
      (m = Method.post ∨ m = Method.put ∨ m = Method.patch ∨ m = Method.delete) →
      handle db c (.groupReq m gid) = .error .methodNotAllowed) ∧
    (∀ (db : DB) (c : Caller) (req : Req) (db' : DB) (r : Resp),
      handle db c req = .ok (db', r) → db'.groups = db.groups) := by
  refine ⟨?_, fun db c req db' r h => handle_ok_groups db c req db' r h⟩
  rintro db c m gid (rfl | rfl | rfl | rfl) <;> cases gid <;> rfl

/-- Witness for C8 on the concrete store: POST on the group collection is
rejected, and a successful post list leaves the groups as they were. -/
theorem C8_witness :
    handle db0 (some 1) (Req.groupReq Method.post none) = .error .methodNotAllowed ∧
    DB.groups db0 = DB.groups db0 :=
  ⟨C8_group_read_only.1 db0 (some 1) Method.post none (Or.inl rfl),
    C8_group_read_only.2 db0 (some 1) Req.postList db0 (Resp.posts db0.posts) rfl⟩

/-- Claim C9: authors are fixed at creation to the authenticated requester
and a comment's parent is fixed at creation from the path; no subsequent
operation changes them — creates append a fresh row and leave the rest
alone, updates preserve every row's id, author (and parent) while rewriting
only the writable fields, and deletes only remove rows (the writable-field
set of updates is modelled from the spec via `applyPostBody` and
`applyCommentBody`, since the serializers are not in the source tree). -/
theorem C9_author_and_parent_immutable :
    (∀ (db : DB) (uid : Nat) (body : PostBody) (db' : DB) (p : Post),
      createPost db (some uid) body = .ok (db', p) →
      p.author = uid ∧ db'.posts = db.posts ++ [p] ∧ db'.comments = db.comments) ∧
    (∀ (db : DB) (uid pid : Nat) (body : CommentBody) (db' : DB) (cm : Comment),
      createComment db (some uid) pid body = .ok (db', cm) →
      cm.author = uid ∧ cm.post = pid ∧
      db'.comments = db.comments ++ [cm] ∧ db'.posts = db.posts) ∧
    (∀ (db : DB) (c : Caller) (pid : Nat) (body : PostBody) (db' : DB) (r : Post),
      updatePost db c pid body = .ok (db', r) →
      db'.posts.map (fun q => (q.id, q.author)) =
        db.posts.map (fun q => (q.id, q.author)) ∧ db'.comments = db.comments) ∧
    (∀ (db : DB) (c : Caller) (pid cid : Nat) (body : CommentBody) (db' : DB)
      (r : Comment),
      updateComment db c pid cid body = .ok (db', r) →
      db'.comments.map (fun q => (q.id, q.author, q.post)) =
        db.comments.map (fun q => (q.id, q.author, q.post)) ∧ db'.posts = db.posts) ∧
    (∀ (db : DB) (c : Caller) (pid : Nat) (db' : DB) (u : Unit),
      destroyPost db c pid = .ok (db', u) →
      (∀ p ∈ db'.posts, p ∈ db.posts) ∧ db'.comments = db.comments) ∧
    (∀ (db : DB) (c : Caller) (pid cid : Nat) (db' : DB) (u : Unit),
      destroyComment db c pid cid = .ok (db', u) →
      (∀ cm ∈ db'.comments, cm ∈ db.comments) ∧ db'.posts = db.posts) := by
  refine ⟨?_, ?_, ?_, ?_, ?_, ?_⟩
  · intro db uid body db' p h
    have hrow := createPost_row db uid body db' p h
    have hst := createPost_state db (some uid) body db' p h
    subst hst
    exact ⟨by rw [hrow], rfl, rfl⟩
  · intro db uid pid body db' cm h
    obtain ⟨p, hp, hrow⟩ := createComment_row db uid pid body db' cm h
    have hst := createComment_state db (some uid) pid body db' cm h
    subst hst
    refine ⟨by rw [hrow], ?_, rfl, rfl⟩
    rw [hrow]
    exact getPost_id db pid p hp
  · intro db c pid body db' r h
    have hst := updatePost_state db c pid body db' r h
    subst hst
    refine ⟨?_, rfl⟩
    show (db.posts.map _).map _ = _
    rw [List.map_map]
    apply List.map_congr_left
    intro a _
    by_cases hq : a.id == pid <;> simp [Function.comp, hq, applyPostBody]
  · intro db c pid cid body db' r h
    have hst := updateComment_state db c pid cid body db' r h
    subst hst
    refine ⟨?_, rfl⟩
    show (db.comments.map _).map _ = _
    rw [List.map_map]
    apply List.map_congr_left
    intro a _
    by_cases hq : a.id == cid <;> simp [Function.comp, hq, applyCommentBody]
  · intro db c pid db' u h
    have hst := destroyPost_state db c pid db' u h
    subst hst
    exact ⟨fun p hp => List.mem_of_mem_filter hp, rfl⟩
  · intro db c pid cid db' u h
    have hst := destroyComment_state db c pid cid db' u h
    subst hst
    exact ⟨fun cm hcm => List.mem_of_mem_filter hcm, rfl⟩

/-- Witness for C9 on the concrete store: a created post and comment carry
their requester as author, an author's update of post 1 and of comment 1
preserves every row's id/author/parent, and the rows surviving an author's
delete were already stored. -/
theorem C9_witness :
    Post.author ⟨3, 4, "new", none⟩ = 4 ∧
    (Comment.author ⟨3, 4, 1, "c"⟩ = 4 ∧ Comment.post ⟨3, 4, 1, "c"⟩ = 1) ∧
    ({ db0 with posts := [⟨1, 1, "edit", none⟩, ⟨2, 2, "world", some 7⟩] } : DB).posts.map
        (fun q => (q.id, q.author)) = db0.posts.map (fun q => (q.id, q.author)) ∧
    ({ db0 with comments := [⟨1, 1, 1, "edit"⟩, ⟨2, 2, 2, "wow"⟩] } : DB).comments.map
        (fun q => (q.id, q.author, q.post)) =
      db0.comments.map (fun q => (q.id, q.author, q.post)) ∧
    (⟨2, 2, "world", some 7⟩ : Post) ∈ db0.posts ∧
    (⟨2, 2, 2, "wow"⟩ : Comment) ∈ db0.comments :=
  ⟨(C9_author_and_parent_immutable.1 db0 4 ⟨"new", none, some 9⟩
      { db0 with posts := db0.posts ++ [⟨3, 4, "new", none⟩] } ⟨3, 4, "new", none⟩
      rfl).1,
    ⟨(C9_author_and_parent_immutable.2.1 db0 4 1 ⟨"c", some 9, some 99⟩
        { db0 with comments := db0.comments ++ [⟨3, 4, 1, "c"⟩] } ⟨3, 4, 1, "c"⟩
        rfl).1,
      (C9_author_and_parent_immutable.2.1 db0 4 1 ⟨"c", some 9, some 99⟩
        { db0 with comments := db0.comments ++ [⟨3, 4, 1, "c"⟩] } ⟨3, 4, 1, "c"⟩
        rfl).2.1⟩,
    (C9_author_and_parent_immutable.2.2.1 db0 (some 1) 1 ⟨"edit", none, some 9⟩
      { db0 with posts := [⟨1, 1, "edit", none⟩, ⟨2, 2, "world", some 7⟩] }
      ⟨1, 1, "edit", none⟩ rfl).1,
    (C9_author_and_parent_immutable.2.2.2.1 db0 (some 1) 1 1 ⟨"edit", some 9, some 99⟩
      { db0 with comments := [⟨1, 1, 1, "edit"⟩, ⟨2, 2, 2, "wow"⟩] }
      ⟨1, 1, 1, "edit"⟩ rfl).1,
    (C9_author_and_parent_immutable.2.2.2.2.1 db0 (some 1) 1
      { db0 with posts := [⟨2, 2, "world", some 7⟩] } () rfl).1
      ⟨2, 2, "world", some 7⟩ (by simp),
    (C9_author_and_parent_immutable.2.2.2.2.2 db0 (some 1) 1 1
      { db0 with comments := [⟨2, 2, 2, "wow"⟩] } () rfl).1
      ⟨2, 2, 2, "wow"⟩ (by simp)⟩

end Yatube
